import Mathlib

set_option maxHeartbeats 1000000

/-!
Shallow embedding of the mcp-server-redis sources: the Redis store model,
the data/key operation layer (src/utils/data-operations.js and
src/utils/key-operations.js), the FinalMCPServer tool wrappers and the
JSON-RPC dispatcher (the main server file), and the stdio transport loop.

Modelling conventions:
* JavaScript/JSON values are the inductive `JVal`; `undefined` and `null`
  are distinguished, as the code distinguishes them.
* The external Redis store is modelled as an association list of entries;
  the client primitives (exists/type/ttl/get/set/lpush/...) are functions
  on that list with Redis command semantics.
* File logging, the on-disk audit log, wall-clock timestamps, the raw
  socket connection and Redis INFO text retrieval are external I/O and are
  not modelled; the connection health probe outcome is a boolean field of
  the server state.
-/

/-- A single-quote character as a string, used to build error messages that
quote key names. -/
def qt : String := String.singleton (Char.ofNat 39)

/-- JSON-like values as passed around by the JavaScript code. -/
inductive JVal where
  | undefV
  | null
  | bool (b : Bool)
  | num (n : Int)
  | str (s : String)
  | arr (xs : List JVal)
  | obj (fields : List (String × JVal))

/-- Property lookup on an object field list; absent fields read as
`undefined`, as in JavaScript. -/
def jgetFields : List (String × JVal) → String → JVal
  | [], _ => .undefV
  | (k, v) :: rest, f => if k = f then v else jgetFields rest f

/-- Property access `v[f]`: `undefined` on non-objects (the code only reads
properties after `|| {}` guards or optional chaining). -/
def jget : JVal → String → JVal
  | .obj fs, f => jgetFields fs f
  | _, _ => .undefV

/-- JavaScript truthiness. -/
def jsTruthy : JVal → Bool
  | .undefV => false
  | .null => false
  | .bool b => b
  | .num n => n != 0
  | .str s => s != ""
  | .arr _ => true
  | .obj _ => true

/-- `a || b` on JavaScript values. -/
def jsOr (a b : JVal) : JVal := if jsTruthy a then a else b

/-- Template-literal rendering of a scalar value. -/
def jsDisplayScalar : JVal → String
  | .undefV => "undefined"
  | .null => "null"
  | .bool b => if b then "true" else "false"
  | .num n => toString n
  | .str s => s
  | .arr _ => ""
  | .obj _ => "[object Object]"

/-- Template-literal rendering of a value, as in `Unknown tool: ...`
messages (objects print as [object Object], arrays join their elements;
rendering of elements below the first level is elided). -/
def jsDisplay : JVal → String
  | .arr xs => String.intercalate "," (xs.map jsDisplayScalar)
  | v => jsDisplayScalar v

/-- Prefix test on character lists (first argument is the candidate
prefix of the second). -/
def listIsPre : List Char → List Char → Bool
  | [], _ => true
  | _ :: _, [] => false
  | a :: as, b :: bs => a == b && listIsPre as bs

/-- Infix test on character lists. -/
def listHasInf (sub : List Char) : List Char → Bool
  | [] => listIsPre sub []
  | c :: cs => listIsPre sub (c :: cs) || listHasInf sub cs

/-- `haystack.includes(needle)` for strings. -/
def jsIncludes (h sub : String) : Bool := listHasInf sub.toList h.toList

/-- The `!key || typeof key !== 'string'` validation used for key
parameters throughout the code. -/
def jsValidKey : JVal → Bool
  | .str s => s != ""
  | _ => false

/-- `value === undefined || value === null`. -/
def jsMissingValue : JVal → Bool
  | .undefV => true
  | .null => true
  | _ => false

/-- `v === s` against a string literal. -/
def jvalIsStr (v : JVal) (s : String) : Bool :=
  match v with
  | .str t => t == s
  | _ => false

/-- `ttl && ttl > 0` for a ttl parameter (non-numbers are falsy in the
comparison contexts the code uses, numbers use ordinary comparison). -/
def jsTtlPos : JVal → Bool
  | .num n => n > 0
  | _ => false

/-- Conversion of a JavaScript value into a Redis command argument; the
client accepts strings and numbers and rejects other types. -/
def toArg : JVal → Except String String
  | .str s => .ok s
  | .num n => .ok (toString n)
  | _ => .error "invalid argument type"

/-- Convert a list of values into command arguments, failing on the first
invalid one. -/
def toArgs : List JVal → Except String (List String)
  | [] => .ok []
  | v :: rest =>
      match toArg v with
      | .error e => .error e
      | .ok s =>
          match toArgs rest with
          | .error e => .error e
          | .ok ss => .ok (s :: ss)

/-! ## The Redis store model -/

/-- A stored Redis value (sorted sets never arise from the modelled
operations and are omitted). -/
inductive RVal where
  | str (s : String)
  | list (xs : List String)
  | set (xs : List String)
  | hash (fields : List (String × String))
deriving DecidableEq, Repr

/-- One key's entry: its value and its expiry (`none` = persistent,
`some n` = n seconds remaining, n > 0). -/
structure Entry where
  val : RVal
  ttl : Option Int
deriving DecidableEq, Repr

/-- The keyspace: an association list from key to entry. -/
abbrev Store := List (String × Entry)

def sLookup : Store → String → Option Entry
  | [], _ => none
  | (k, e) :: rest, q => if k = q then some e else sLookup rest q

/-- Replace the entry at a key, or append it if absent. -/
def sInsert : Store → String → Entry → Store
  | [], k, e => [(k, e)]
  | (k0, e0) :: rest, k, e =>
      if k0 = k then (k0, e) :: rest else (k0, e0) :: sInsert rest k e

/-- Remove every binding of a key. -/
def sRemove : Store → String → Store
  | [], _ => []
  | (k0, e0) :: rest, k =>
      if k0 = k then sRemove rest k else (k0, e0) :: sRemove rest k

/-- DEL: remove the key; returns the number of keys removed and the new
store. -/
def sDel (s : Store) (k : String) : Int × Store :=
  match sLookup s k with
  | none => (0, s)
  | some _ => (1, sRemove s k)

/-- EXISTS: 1 when present, 0 otherwise. -/
def sExistsNum (s : Store) (k : String) : Int :=
  match sLookup s k with
  | some _ => 1
  | none => 0

/-- TYPE as the string the client returns. -/
def rvalType : RVal → String
  | .str _ => "string"
  | .list _ => "list"
  | .set _ => "set"
  | .hash _ => "hash"

def sType (s : Store) (k : String) : String :=
  match sLookup s k with
  | some e => rvalType e.val
  | none => "none"

/-- TTL: -2 for an absent key, -1 for a persistent key, else the remaining
seconds. -/
def sTtl (s : Store) (k : String) : Int :=
  match sLookup s k with
  | none => -2
  | some e =>
      match e.ttl with
      | none => -1
      | some n => n

/-- SET: plain string write; clears any expiry. -/
def sSet (s : Store) (k : String) (v : String) : Store :=
  sInsert s k ⟨.str v, none⟩

/-- SETEX: string write with expiry. -/
def sSetEx (s : Store) (k : String) (ttl : Int) (v : String) : Store :=
  sInsert s k ⟨.str v, some ttl⟩

/-- LPUSH: prepends the arguments left to right; zero arguments is a
command arity error, and a non-list entry is a WRONGTYPE error. Returns
the new list length. -/
def sLpush (s : Store) (k : String) (vs : List String) :
    Except String (Int × Store) :=
  if vs = [] then .error "wrong number of arguments for lpush"
  else
    match sLookup s k with
    | none => .ok (vs.length, sInsert s k ⟨.list vs.reverse, none⟩)
    | some ⟨.list xs, t⟩ =>
        .ok ((vs.length + xs.length : Nat),
             sInsert s k ⟨.list (vs.reverse ++ xs), t⟩)
    | some _ =>
        .error "WRONGTYPE Operation against a key holding the wrong kind of value"

/-- Add members to a set, skipping duplicates; returns how many were new. -/
def setAddAll (xs : List String) : List String → List String × Nat
  | [] => (xs, 0)
  | v :: rest =>
      if xs.contains v then setAddAll xs rest
      else
        let r := setAddAll (xs ++ [v]) rest
        (r.1, r.2 + 1)

/-- SADD: zero members is an arity error, non-set entries are WRONGTYPE. -/
def sSadd (s : Store) (k : String) (vs : List String) :
    Except String (Int × Store) :=
  if vs = [] then .error "wrong number of arguments for sadd"
  else
    match sLookup s k with
    | none =>
        let r := setAddAll [] vs
        .ok ((r.2 : Nat), sInsert s k ⟨.set r.1, none⟩)
    | some ⟨.set xs, t⟩ =>
        let r := setAddAll xs vs
        .ok ((r.2 : Nat), sInsert s k ⟨.set r.1, t⟩)
    | some _ =>
        .error "WRONGTYPE Operation against a key holding the wrong kind of value"

/-- Merge hash fields, replacing existing ones; counts newly added fields. -/
def hashSetAll (xs : List (String × String)) :
    List (String × String) → List (String × String) × Nat
  | [] => (xs, 0)
  | (f, v) :: rest =>
      if (xs.map Prod.fst).contains f then
        hashSetAll (xs.map (fun p => if p.1 = f then (f, v) else p)) rest
      else
        let r := hashSetAll (xs ++ [(f, v)]) rest
        (r.1, r.2 + 1)

/-- HSET: zero field pairs is an arity error, non-hash entries WRONGTYPE. -/
def sHset (s : Store) (k : String) (ps : List (String × String)) :
    Except String (Int × Store) :=
  if ps = [] then .error "wrong number of arguments for hset"
  else
    match sLookup s k with
    | none =>
        let r := hashSetAll [] ps
        .ok ((r.2 : Nat), sInsert s k ⟨.hash r.1, none⟩)
    | some ⟨.hash xs, t⟩ =>
        let r := hashSetAll xs ps
        .ok ((r.2 : Nat), sInsert s k ⟨.hash r.1, t⟩)
    | some _ =>
        .error "WRONGTYPE Operation against a key holding the wrong kind of value"

/-- EXPIRE: 1 and sets the expiry when the key exists, 0 otherwise. -/
def sExpire (s : Store) (k : String) (n : Int) : Int × Store :=
  match sLookup s k with
  | none => (0, s)
  | some e => (1, sInsert s k ⟨e.val, some n⟩)

/-- PERSIST: 1 when an expiry was removed, 0 otherwise. -/
def sPersist (s : Store) (k : String) : Int × Store :=
  match sLookup s k with
  | none => (0, s)
  | some e =>
      match e.ttl with
      | none => (0, s)
      | some _ => (1, sInsert s k ⟨e.val, none⟩)

/-- RENAME: moves the entry (overwriting the target); error if the source
is absent. The callers check existence first. -/
def sRename (s : Store) (old new : String) : Except String Store :=
  match sLookup s old with
  | none => .error "no such key"
  | some e =>
      let s1 := (sDel s old).2
      .ok (sInsert s1 new e)

/-- KEYS with a pattern: `*` matches every key, any other pattern is
modelled as a literal key match (general glob syntax is not exercised by
the code paths under study). -/
def sKeys (s : Store) (pat : String) : List String :=
  if pat = "*" then s.map Prod.fst
  else (s.map Prod.fst).filter (fun k => k = pat)

/-- DBSIZE. -/
def sDbSize (s : Store) : Int := s.length

/-- The type-dispatched read of getData's switch. -/
def readVal (s : Store) (k : String) : JVal :=
  match sLookup s k with
  | none => .null
  | some e =>
      match e.val with
      | .str v => .str v
      | .list xs => .arr (xs.map JVal.str)
      | .set xs => .arr (xs.map JVal.str)
      | .hash fs => .obj (fs.map (fun p => (p.1, JVal.str p.2)))

/-! ## Permission flags (src/utils/redis-connection.js) -/

/-- The five permission flags, each `process.env.ALLOW_X !== 'false'`,
read once at startup. -/
structure Perms where
  allowInsert : Bool
  allowUpdate : Bool
  allowDelete : Bool
  allowCreate : Bool
  allowDrop : Bool
deriving DecidableEq, Repr

/-- The object returned by `getPermissions()`. -/
def permsJ (pm : Perms) : JVal :=
  .obj [("allowInsert", .bool pm.allowInsert),
        ("allowUpdate", .bool pm.allowUpdate),
        ("allowDelete", .bool pm.allowDelete),
        ("allowCreate", .bool pm.allowCreate),
        ("allowDrop", .bool pm.allowDrop)]

/-! ## Shared helpers of the operation layer -/

/-- Destructuring default: applied only when the property is undefined. -/
def jsDefault (v d : JVal) : JVal :=
  match v with
  | .undefV => d
  | x => x

/-- Extract a key argument that passes
`!key || typeof key !== 'string'`. -/
def keyArg (p : JVal) (f : String) : Option String :=
  match jget p f with
  | .str s => if s = "" then none else some s
  | _ => none

/-- The numeric payload of a ttl value (callers guard with `jsTtlPos`). -/
def ttlNum : JVal → Int
  | .num n => n
  | _ => 0

/-- The ttl reporting ternary
`ttl > 0 ? ttl : (ttl === -1 ? 'persistent' : 'expired')`, applied to a
number or to null (null compares as neither positive nor -1). -/
def ttlTernary : JVal → JVal
  | .num n =>
      if n > 0 then .num n
      else if n = -1 then .str "persistent" else .str "expired"
  | _ => .str "expired"

/-- `Object.entries(value).flat()` turned into field/value string pairs,
converting each value into a command argument. Arrays are objects in
JavaScript, so an array value contributes its indices as field names. -/
def toPairs : List (String × JVal) → Except String (List (String × String))
  | [] => .ok []
  | (f, v) :: rest =>
      match toArg v with
      | .error e => .error e
      | .ok s =>
          match toPairs rest with
          | .error e => .error e
          | .ok ss => .ok ((f, s) :: ss)

/-- Index/value pairs of an array value, as `Object.entries` sees them. -/
def arrEntries (xs : List JVal) : List (String × JVal) :=
  (List.range xs.length).zip xs |>.map (fun p => (toString p.1, p.2))

/-! ## DataOperations (src/utils/data-operations.js) -/

/-- `getData`: read a key with a type-dispatched value read; an absent key
reports all-null fields. -/
def DataOperations.getData (p : JVal) (s : Store) :
    Except String JVal × Store :=
  match keyArg p ("key") with
  | none => (.error ("Missing or invalid key parameter"), s)
  | some k =>
      if sExistsNum s k = 0 then
        (.ok (.obj [("key", .str k), ("value", .null), ("exists", .bool false),
                    ("type", .null), ("ttl", .null)]), s)
      else
        let ty := sType s k
        let t := sTtl s k
        let v := readVal s k
        (.ok (.obj [("key", .str k), ("value", v), ("exists", .bool true),
                    ("type", .str ty), ("ttl", ttlTernary (.num t))]), s)

/-- The type-dispatch switch of `setData` (the body of its try block up to
the TTL application); returns the `result` variable. -/
def setDataBody (k : String) (value ttl ty : JVal) (s : Store) :
    Except String JVal × Store :=
  if jvalIsStr ty ("string") then
    match toArg value with
    | .error e => (.error e, s)
    | .ok v =>
        if jsTtlPos ttl then (.ok (.str "OK"), sSetEx s k (ttlNum ttl) v)
        else (.ok (.str "OK"), sSet s k v)
  else if jvalIsStr ty ("list") then
    match value with
    | .arr xs =>
        let s1 := (sDel s k).2
        if xs.length > 0 then
          match toArgs xs with
          | .error e => (.error e, s1)
          | .ok vs =>
              match sLpush s1 k vs with
              | .error e => (.error e, s1)
              | .ok (n, s2) => (.ok (.num n), s2)
        else
          match sLpush s1 k [""] with
          | .error e => (.error e, s1)
          | .ok (n, s2) => (.ok (.num n), s2)
    | v =>
        match toArg v with
        | .error e => (.error e, s)
        | .ok a =>
            match sLpush s k [a] with
            | .error e => (.error e, s)
            | .ok (n, s2) => (.ok (.num n), s2)
  else if jvalIsStr ty ("set") then
    match value with
    | .arr xs =>
        let s1 := (sDel s k).2
        if xs.length > 0 then
          match toArgs xs with
          | .error e => (.error e, s1)
          | .ok vs =>
              match sSadd s1 k vs with
              | .error e => (.error e, s1)
              | .ok (n, s2) => (.ok (.num n), s2)
        else (.ok .undefV, s1)
    | v =>
        match toArg v with
        | .error e => (.error e, s)
        | .ok a =>
            match sSadd s k [a] with
            | .error e => (.error e, s)
            | .ok (n, s2) => (.ok (.num n), s2)
  else if jvalIsStr ty ("hash") then
    match value with
    | .obj fs =>
        let s1 := (sDel s k).2
        if fs.length > 0 then
          match toPairs fs with
          | .error e => (.error e, s1)
          | .ok ps =>
              match sHset s1 k ps with
              | .error e => (.error e, s1)
              | .ok (n, s2) => (.ok (.num n), s2)
        else (.ok .undefV, s1)
    | .arr xs =>
        let s1 := (sDel s k).2
        if xs.length > 0 then
          match toPairs (arrEntries xs) with
          | .error e => (.error e, s1)
          | .ok ps =>
              match sHset s1 k ps with
              | .error e => (.error e, s1)
              | .ok (n, s2) => (.ok (.num n), s2)
        else (.ok .undefV, s1)
    | _ => (.error ("Hash value must be an object"), s)
  else (.error ("Unsupported data type: " ++ jsDisplay ty), s)

/-- `setData`: permission check first, then argument validation, then the
type-dispatched write; trailing `expire` for non-string types; errors from
the try block are prefixed. -/
def DataOperations.setData (pm : Perms) (p : JVal) (s : Store) :
    Except String JVal × Store :=
  if !pm.allowInsert then (.error ("Insert operations are not allowed"), s)
  else
    let value := jget p ("value")
    let ttl := jget p ("ttl")
    let ty := jsDefault (jget p ("type")) (.str "string")
    match keyArg p ("key") with
    | none => (.error ("Missing or invalid key parameter"), s)
    | some k =>
        if jsMissingValue value then (.error ("Missing value parameter"), s)
        else
          match setDataBody k value ttl ty s with
          | (.ok r, s2) =>
              let s3 :=
                if jsTtlPos ttl && !jvalIsStr ty ("string") then
                  (sExpire s2 k (ttlNum ttl)).2
                else s2
              (.ok (.obj [("key", .str k), ("value", value), ("type", ty),
                          ("ttl", jsOr ttl .null), ("result", r)]), s3)
          | (.error m, s2) => (.error ("Failed to set data: " ++ m), s2)

/-- The type-dispatch switch of `updateData`, keyed on the key's current
Redis type; each non-string branch deletes the key first. -/
def updateDataBody (k : String) (value ttl : JVal) (ty : String)
    (s : Store) : Except String JVal × Store :=
  if ty = "string" then
    match toArg value with
    | .error e => (.error e, s)
    | .ok v =>
        if jsTtlPos ttl then (.ok (.str "OK"), sSetEx s k (ttlNum ttl) v)
        else (.ok (.str "OK"), sSet s k v)
  else if ty = "list" then
    let s1 := (sDel s k).2
    match value with
    | .arr xs =>
        if xs.length > 0 then
          match toArgs xs with
          | .error e => (.error e, s1)
          | .ok vs =>
              match sLpush s1 k vs with
              | .error e => (.error e, s1)
              | .ok (n, s2) => (.ok (.num n), s2)
        else (.ok .undefV, s1)
    | v =>
        match toArg v with
        | .error e => (.error e, s1)
        | .ok a =>
            match sLpush s1 k [a] with
            | .error e => (.error e, s1)
            | .ok (n, s2) => (.ok (.num n), s2)
  else if ty = "set" then
    let s1 := (sDel s k).2
    match value with
    | .arr xs =>
        if xs.length > 0 then
          match toArgs xs with
          | .error e => (.error e, s1)
          | .ok vs =>
              match sSadd s1 k vs with
              | .error e => (.error e, s1)
              | .ok (n, s2) => (.ok (.num n), s2)
        else (.ok .undefV, s1)
    | v =>
        match toArg v with
        | .error e => (.error e, s1)
        | .ok a =>
            match sSadd s1 k [a] with
            | .error e => (.error e, s1)
            | .ok (n, s2) => (.ok (.num n), s2)
  else if ty = "hash" then
    let s1 := (sDel s k).2
    match value with
    | .obj fs =>
        if fs.length > 0 then
          match toPairs fs with
          | .error e => (.error e, s1)
          | .ok ps =>
              match sHset s1 k ps with
              | .error e => (.error e, s1)
              | .ok (n, s2) => (.ok (.num n), s2)
        else (.ok .undefV, s1)
    | .arr xs =>
        if xs.length > 0 then
          match toPairs (arrEntries xs) with
          | .error e => (.error e, s1)
          | .ok ps =>
              match sHset s1 k ps with
              | .error e => (.error e, s1)
              | .ok (n, s2) => (.ok (.num n), s2)
        else (.ok .undefV, s1)
    | _ => (.error ("Hash value must be an object"), s1)
  else (.error ("Cannot update unsupported data type: " ++ ty), s)

/-- `updateData`: permission check first, then argument validation; fails
if the key is absent, otherwise replaces the value according to its
current type, then applies the given ttl. -/
def DataOperations.updateData (pm : Perms) (p : JVal) (s : Store) :
    Except String JVal × Store :=
  if !pm.allowUpdate then (.error ("Update operations are not allowed"), s)
  else
    let value := jget p ("value")
    let ttl := jget p ("ttl")
    match keyArg p ("key") with
    | none => (.error ("Missing or invalid key parameter"), s)
    | some k =>
        if jsMissingValue value then (.error ("Missing value parameter"), s)
        else
          if sExistsNum s k = 0 then
            (.error ("Failed to update data: Key " ++ qt ++ k ++ qt ++
                     " does not exist"), s)
          else
            let ty := sType s k
            match updateDataBody k value ttl ty s with
            | (.ok r, s2) =>
                let s3 :=
                  if jsTtlPos ttl then (sExpire s2 k (ttlNum ttl)).2 else s2
                (.ok (.obj [("key", .str k), ("value", value),
                            ("type", .str ty), ("ttl", jsOr ttl .null),
                            ("result", r)]), s3)
            | (.error m, s2) => (.error ("Failed to update data: " ++ m), s2)

/-- `deleteData`: permission check first; deleting an absent key is a
non-failing no-op result. -/
def DataOperations.deleteData (pm : Perms) (p : JVal) (s : Store) :
    Except String JVal × Store :=
  if !pm.allowDelete then (.error ("Delete operations are not allowed"), s)
  else
    match keyArg p ("key") with
    | none => (.error ("Missing or invalid key parameter"), s)
    | some k =>
        if sExistsNum s k = 0 then
          (.ok (.obj [("key", .str k), ("deleted", .bool false),
                      ("message", .str "Key does not exist")]), s)
        else
          let r := sDel s k
          (.ok (.obj [("key", .str k), ("deleted", .bool (r.1 > 0)),
                      ("result", .num r.1)]), r.2)

/-- `listKeys`: pattern/limit/offset validation, key enumeration, and
pagination with per-key type and ttl annotation. -/
def DataOperations.listKeys (p : JVal) (s : Store) :
    Except String JVal × Store :=
  let pat := jsDefault (jget p ("pattern")) (.str "*")
  let lim := jsDefault (jget p ("limit")) (.num 100)
  let off := jsDefault (jget p ("offset")) (.num 0)
  match pat with
  | .str pt =>
      match lim with
      | .num l =>
          if l < 1 ∨ l > 10000 then
            (.error ("Limit must be between 1 and 10000"), s)
          else
            match off with
            | .num o =>
                if o < 0 then (.error ("Offset must be >= 0"), s)
                else
                  let keys := sKeys s pt
                  let total : Int := keys.length
                  let page := (keys.drop o.toNat).take l.toNat
                  let infos := page.map (fun k =>
                    JVal.obj [("key", .str k), ("type", .str (sType s k)),
                              ("ttl", ttlTernary (.num (sTtl s k)))])
                  (.ok (.obj [("keys", .arr infos), ("total", .num total),
                              ("limit", .num l), ("offset", .num o),
                              ("hasMore", .bool (o + l < total)),
                              ("pattern", .str pt)]), s)
            | _ => (.error ("Offset must be >= 0"), s)
      | _ => (.error ("Limit must be between 1 and 10000"), s)
  | _ => (.error ("Pattern must be a string"), s)

/-! ## KeyOperations (src/utils/key-operations.js) -/

/-- The type-dispatch switch of `createKey` (no deletes, no empty-array
guards on list/set: an empty array reaches the store primitive and fails
its arity check; an empty hash object writes a placeholder field). -/
def createKeyBody (k : String) (value ttl ty : JVal) (s : Store) :
    Except String JVal × Store :=
  if jvalIsStr ty ("string") then
    match toArg value with
    | .error e => (.error e, s)
    | .ok v =>
        if jsTtlPos ttl then (.ok (.str "OK"), sSetEx s k (ttlNum ttl) v)
        else (.ok (.str "OK"), sSet s k v)
  else if jvalIsStr ty ("list") then
    match value with
    | .arr xs =>
        match toArgs xs with
        | .error e => (.error e, s)
        | .ok vs =>
            match sLpush s k vs with
            | .error e => (.error e, s)
            | .ok (n, s2) => (.ok (.num n), s2)
    | v =>
        match toArg v with
        | .error e => (.error e, s)
        | .ok a =>
            match sLpush s k [a] with
            | .error e => (.error e, s)
            | .ok (n, s2) => (.ok (.num n), s2)
  else if jvalIsStr ty ("set") then
    match value with
    | .arr xs =>
        match toArgs xs with
        | .error e => (.error e, s)
        | .ok vs =>
            match sSadd s k vs with
            | .error e => (.error e, s)
            | .ok (n, s2) => (.ok (.num n), s2)
    | v =>
        match toArg v with
        | .error e => (.error e, s)
        | .ok a =>
            match sSadd s k [a] with
            | .error e => (.error e, s)
            | .ok (n, s2) => (.ok (.num n), s2)
  else if jvalIsStr ty ("hash") then
    match value with
    | .obj fs =>
        if fs.length > 0 then
          match toPairs fs with
          | .error e => (.error e, s)
          | .ok ps =>
              match sHset s k ps with
              | .error e => (.error e, s)
              | .ok (n, s2) => (.ok (.num n), s2)
        else
          match sHset s k [("placeholder", "")] with
          | .error e => (.error e, s)
          | .ok (n, s2) => (.ok (.num n), s2)
    | .arr xs =>
        if xs.length > 0 then
          match toPairs (arrEntries xs) with
          | .error e => (.error e, s)
          | .ok ps =>
              match sHset s k ps with
              | .error e => (.error e, s)
              | .ok (n, s2) => (.ok (.num n), s2)
        else
          match sHset s k [("placeholder", "")] with
          | .error e => (.error e, s)
          | .ok (n, s2) => (.ok (.num n), s2)
    | _ => (.error ("Hash value must be an object"), s)
  else (.error ("Unsupported key type: " ++ jsDisplay ty), s)

/-- `createKey`: permission check first, then key validation, then an
existence check that makes creating an existing key a conflict error;
errors from the try block are prefixed. -/
def KeyOperations.createKey (pm : Perms) (p : JVal) (s : Store) :
    Except String JVal × Store :=
  if !pm.allowCreate then
    (.error ("Create key operations are not allowed"), s)
  else
    let value := jsDefault (jget p ("value")) (.str "")
    let ty := jsDefault (jget p ("type")) (.str "string")
    let ttl := jget p ("ttl")
    match keyArg p ("key") with
    | none => (.error ("Missing or invalid key parameter"), s)
    | some k =>
        if sExistsNum s k != 0 then
          (.error ("Failed to create key: Key " ++ qt ++ k ++ qt ++
                   " already exists"), s)
        else
          match createKeyBody k value ttl ty s with
          | (.ok r, s2) =>
              let s3 :=
                if jsTtlPos ttl && !jvalIsStr ty ("string") then
                  (sExpire s2 k (ttlNum ttl)).2
                else s2
              (.ok (.obj [("key", .str k), ("value", value), ("type", ty),
                          ("ttl", jsOr ttl .null), ("created", .bool true),
                          ("result", r)]), s3)
          | (.error m, s2) => (.error ("Failed to create key: " ++ m), s2)

/-- `dropKey`: permission check first; dropping an absent key is a
non-failing no-op result. -/
def KeyOperations.dropKey (pm : Perms) (p : JVal) (s : Store) :
    Except String JVal × Store :=
  if !pm.allowDrop then (.error ("Drop key operations are not allowed"), s)
  else
    match keyArg p ("key") with
    | none => (.error ("Missing or invalid key parameter"), s)
    | some k =>
        if sExistsNum s k = 0 then
          (.ok (.obj [("key", .str k), ("dropped", .bool false),
                      ("message", .str "Key does not exist")]), s)
        else
          let r := sDel s k
          (.ok (.obj [("key", .str k), ("dropped", .bool (r.1 > 0)),
                      ("result", .num r.1)]), r.2)

/-- `existsKey`: reports existence, type and ttl; for an absent key the
internal type and ttl variables are null, and null falls through the ttl
reporting ternary to the literal marker for an expired key. -/
def KeyOperations.existsKey (p : JVal) (s : Store) :
    Except String JVal × Store :=
  match keyArg p ("key") with
  | none => (.error ("Missing or invalid key parameter"), s)
  | some k =>
      let en := sExistsNum s k
      let ty := if en != 0 then JVal.str (sType s k) else JVal.null
      let tt := if en != 0 then JVal.num (sTtl s k) else JVal.null
      (.ok (.obj [("key", .str k), ("exists", .bool (en = 1)),
                  ("type", ty), ("ttl", ttlTernary tt)]), s)

/-- `getKeyInfo`: existence, type, ttl and a type-dispatched size. -/
def KeyOperations.getKeyInfo (p : JVal) (s : Store) :
    Except String JVal × Store :=
  match keyArg p ("key") with
  | none => (.error ("Missing or invalid key parameter"), s)
  | some k =>
      if sExistsNum s k = 0 then
        (.ok (.obj [("key", .str k), ("exists", .bool false),
                    ("type", .null), ("ttl", .null), ("size", .null)]), s)
      else
        let ty := sType s k
        let t := sTtl s k
        let size : JVal :=
          match sLookup s k with
          | some e =>
              match e.val with
              | .str v => .num v.length
              | .list xs => .num xs.length
              | .set xs => .num xs.length
              | .hash fs => .num fs.length
          | none => .null
        (.ok (.obj [("key", .str k), ("exists", .bool true),
                    ("type", .str ty), ("ttl", ttlTernary (.num t)),
                    ("size", size)]), s)

/-- `renameKey`: requires both the create and the drop flag as its very
first step; then source-exists and target-absent checks, then the rename. -/
def KeyOperations.renameKey (pm : Perms) (p : JVal) (s : Store) :
    Except String JVal × Store :=
  if !(pm.allowCreate && pm.allowDrop) then
    (.error ("Rename operations require both create and drop permissions"), s)
  else
    match keyArg p ("oldKey") with
    | none => (.error ("Missing or invalid oldKey parameter"), s)
    | some ok =>
        match keyArg p ("newKey") with
        | none => (.error ("Missing or invalid newKey parameter"), s)
        | some nk =>
            if sExistsNum s ok = 0 then
              (.error ("Failed to rename key: Source key " ++ qt ++ ok ++
                       qt ++ " does not exist"), s)
            else if sExistsNum s nk != 0 then
              (.error ("Failed to rename key: Target key " ++ qt ++ nk ++
                       qt ++ " already exists"), s)
            else
              match sRename s ok nk with
              | .error m => (.error ("Failed to rename key: " ++ m), s)
              | .ok s2 =>
                  (.ok (.obj [("oldKey", .str ok), ("newKey", .str nk),
                              ("renamed", .bool true)]), s2)

/-- `setTTL`: key and positive-number validation, then an existence check,
then EXPIRE. -/
def KeyOperations.setTTL (p : JVal) (s : Store) :
    Except String JVal × Store :=
  match keyArg p ("key") with
  | none => (.error ("Missing or invalid key parameter"), s)
  | some k =>
      let ttl := jget p ("ttl")
      if !jsTtlPos ttl then (.error ("TTL must be a positive number"), s)
      else
        if sExistsNum s k = 0 then
          (.error ("Failed to set TTL: Key " ++ qt ++ k ++ qt ++
                   " does not exist"), s)
        else
          let r := sExpire s k (ttlNum ttl)
          (.ok (.obj [("key", .str k), ("ttl", ttl),
                      ("set", .bool (r.1 = 1))]), r.2)

/-- `removeTTL`: key validation, existence check, then PERSIST. -/
def KeyOperations.removeTTL (p : JVal) (s : Store) :
    Except String JVal × Store :=
  match keyArg p ("key") with
  | none => (.error ("Missing or invalid key parameter"), s)
  | some k =>
      if sExistsNum s k = 0 then
        (.error ("Failed to remove TTL: Key " ++ qt ++ k ++ qt ++
                 " does not exist"), s)
      else
        let r := sPersist s k
        (.ok (.obj [("key", .str k), ("ttlRemoved", .bool (r.1 = 1))]), r.2)

/-! ## FinalMCPServer tool wrappers (main server file)

Each wrapper validates its parameters, delegates to the operation layer,
and re-throws failures with a `Failed to ...:` message. The wrappers
destructure `params` and pass the same fields on, which is equivalent to
forwarding the params object (the operation layer re-destructures and
applies the same defaults). -/

def FinalMCPServer.get_data (p : JVal) (s : Store) :
    Except String JVal × Store :=
  if !jsValidKey (jget p ("key")) then
    (.error ("Missing or invalid key parameter"), s)
  else
    match DataOperations.getData p s with
    | (.ok r, s2) => (.ok r, s2)
    | (.error m, s2) => (.error ("Failed to get data: " ++ m), s2)

def FinalMCPServer.set_data (pm : Perms) (p : JVal) (s : Store) :
    Except String JVal × Store :=
  if !jsValidKey (jget p ("key")) then
    (.error ("Missing or invalid key parameter"), s)
  else if jsMissingValue (jget p ("value")) then
    (.error ("Missing value parameter"), s)
  else
    match DataOperations.setData pm p s with
    | (.ok r, s2) => (.ok r, s2)
    | (.error m, s2) => (.error ("Failed to set data: " ++ m), s2)

def FinalMCPServer.update_data (pm : Perms) (p : JVal) (s : Store) :
    Except String JVal × Store :=
  if !jsValidKey (jget p ("key")) then
    (.error ("Missing or invalid key parameter"), s)
  else if jsMissingValue (jget p ("value")) then
    (.error ("Missing value parameter"), s)
  else
    match DataOperations.updateData pm p s with
    | (.ok r, s2) => (.ok r, s2)
    | (.error m, s2) => (.error ("Failed to update data: " ++ m), s2)

def FinalMCPServer.delete_data (pm : Perms) (p : JVal) (s : Store) :
    Except String JVal × Store :=
  if !jsValidKey (jget p ("key")) then
    (.error ("Missing or invalid key parameter"), s)
  else
    match DataOperations.deleteData pm p s with
    | (.ok r, s2) => (.ok r, s2)
    | (.error m, s2) => (.error ("Failed to delete data: " ++ m), s2)

def FinalMCPServer.list_keys (p : JVal) (s : Store) :
    Except String JVal × Store :=
  match DataOperations.listKeys p s with
  | (.ok r, s2) => (.ok r, s2)
  | (.error m, s2) => (.error ("Failed to list keys: " ++ m), s2)

def FinalMCPServer.create_key (pm : Perms) (p : JVal) (s : Store) :
    Except String JVal × Store :=
  if !jsValidKey (jget p ("key")) then
    (.error ("Missing or invalid key parameter"), s)
  else
    match KeyOperations.createKey pm p s with
    | (.ok r, s2) => (.ok r, s2)
    | (.error m, s2) => (.error ("Failed to create key: " ++ m), s2)

def FinalMCPServer.drop_key (pm : Perms) (p : JVal) (s : Store) :
    Except String JVal × Store :=
  if !jsValidKey (jget p ("key")) then
    (.error ("Missing or invalid key parameter"), s)
  else
    match KeyOperations.dropKey pm p s with
    | (.ok r, s2) => (.ok r, s2)
    | (.error m, s2) => (.error ("Failed to drop key: " ++ m), s2)

def FinalMCPServer.exists_key (p : JVal) (s : Store) :
    Except String JVal × Store :=
  if !jsValidKey (jget p ("key")) then
    (.error ("Missing or invalid key parameter"), s)
  else
    match KeyOperations.existsKey p s with
    | (.ok r, s2) => (.ok r, s2)
    | (.error m, s2) => (.error ("Failed to check key existence: " ++ m), s2)

def FinalMCPServer.get_key_info (p : JVal) (s : Store) :
    Except String JVal × Store :=
  if !jsValidKey (jget p ("key")) then
    (.error ("Missing or invalid key parameter"), s)
  else
    match KeyOperations.getKeyInfo p s with
    | (.ok r, s2) => (.ok r, s2)
    | (.error m, s2) => (.error ("Failed to get key info: " ++ m), s2)

def FinalMCPServer.rename_key (pm : Perms) (p : JVal) (s : Store) :
    Except String JVal × Store :=
  if !jsValidKey (jget p ("oldKey")) then
    (.error ("Missing or invalid oldKey parameter"), s)
  else if !jsValidKey (jget p ("newKey")) then
    (.error ("Missing or invalid newKey parameter"), s)
  else
    match KeyOperations.renameKey pm p s with
    | (.ok r, s2) => (.ok r, s2)
    | (.error m, s2) => (.error ("Failed to rename key: " ++ m), s2)

def FinalMCPServer.set_ttl (p : JVal) (s : Store) :
    Except String JVal × Store :=
  if !jsValidKey (jget p ("key")) then
    (.error ("Missing or invalid key parameter"), s)
  else if !jsTtlPos (jget p ("ttl")) then
    (.error ("TTL must be a positive number"), s)
  else
    match KeyOperations.setTTL p s with
    | (.ok r, s2) => (.ok r, s2)
    | (.error m, s2) => (.error ("Failed to set TTL: " ++ m), s2)

def FinalMCPServer.remove_ttl (p : JVal) (s : Store) :
    Except String JVal × Store :=
  if !jsValidKey (jget p ("key")) then
    (.error ("Missing or invalid key parameter"), s)
  else
    match KeyOperations.removeTTL p s with
    | (.ok r, s2) => (.ok r, s2)
    | (.error m, s2) => (.error ("Failed to remove TTL: " ++ m), s2)

/-! ## Server state and info tools -/

/-- The dispatcher's mutable state: the `this.initialized` flag (named
`inited` here), the external store, and the outcome the next connection
health probe would report (external liveness, modelled as state). -/
structure SState where
  inited : Bool
  store : Store
  connHealthy : Bool

/-- `getConnectionInfo()`; host/port/password come from the environment
and are modelled by their documented defaults. -/
def connJ (st : SState) : JVal :=
  .obj [("host", .str "localhost"), ("port", .num 6379),
        ("hasPassword", .bool false), ("isConnected", .bool st.connHealthy)]

/-- `get_redis_info` result; the fields parsed out of the Redis INFO text
are external data and are left as an empty mapping. -/
def FinalMCPServer.get_redis_info (pm : Perms) (st : SState) : JVal :=
  .obj [("connection", connJ st), ("permissions", permsJ pm),
        ("database", .obj [("size", .num (sDbSize st.store))]),
        ("server", .obj [])]

/-- `get_database_stats` result; keyspace INFO text is external. -/
def FinalMCPServer.get_database_stats (st : SState) : JVal :=
  .obj [("totalKeys", .num (sDbSize st.store)), ("databases", .obj [])]

/-- `get_memory_info` result; memory INFO text is external. -/
def FinalMCPServer.get_memory_info : JVal := .obj []

/-- `test_connection` result; the wall-clock timestamp is not modelled. -/
def FinalMCPServer.test_connection (st : SState) : JVal :=
  .obj [("connected", .bool st.connHealthy), ("connection", connJ st),
        ("timestamp", .str "1970-01-01T00:00:00.000Z")]

/-- `get_operation_logs`: validates limit/offset and slices the in-memory
log ring; log recording is unmodelled I/O, so the ring stays at its
initial empty value. -/
def FinalMCPServer.get_operation_logs (p : JVal) :
    Except String JVal :=
  let lim := jsDefault (jget p ("limit")) (.num 50)
  let off := jsDefault (jget p ("offset")) (.num 0)
  match lim with
  | .num l =>
      if l < 1 ∨ l > 1000 then
        .error "limit parameter must be between 1-1000"
      else
        match off with
        | .num o =>
            if o < 0 then
              .error "offset parameter must be greater than or equal to 0"
            else
              .ok (.obj [("logs", .arr []), ("total", .num 0),
                         ("limit", .num l), ("offset", .num o),
                         ("hasMore", .bool (o + l < 0))])
        | _ => .error "offset parameter must be greater than or equal to 0"
  | _ => .error "limit parameter must be between 1-1000"

/-- `check_permissions` result (config host/port from the environment are
modelled by their defaults). -/
def FinalMCPServer.check_permissions (pm : Perms) (st : SState) : JVal :=
  .obj [("permissions", permsJ pm), ("connection", connJ st),
        ("config", .obj [("host", .str "localhost"), ("port", .num 6379),
                         ("hasPassword", .bool false)]),
        ("environmentVariables",
         .obj [("ALLOW_INSERT", .bool pm.allowInsert),
               ("ALLOW_UPDATE", .bool pm.allowUpdate),
               ("ALLOW_DELETE", .bool pm.allowDelete),
               ("ALLOW_CREATE", .bool pm.allowCreate),
               ("ALLOW_DROP", .bool pm.allowDrop)])]

/-! ## The tool method table and the permission-gated manifest -/

/-- The 18 tool methods the manifest can name. -/
def toolNames : List String :=
  ["get_data", "set_data", "update_data", "delete_data", "list_keys",
   "create_key", "drop_key", "exists_key", "get_key_info", "rename_key",
   "set_ttl", "remove_ttl", "get_redis_info", "get_database_stats",
   "get_memory_info", "test_connection", "get_operation_logs",
   "check_permissions"]

/-- Truthiness of `this[name]` on the server instance: class methods are
always truthy; the constructor fields `name`, `version`, the four helper
objects and `maxRestarts` are truthy values, `restartCount` (0) and
`healthCheckInterval` (null) are falsy, and `this.initialized` is truthy
only after initialization. Members inherited from Object.prototype are
not modelled. -/
def memberTruthy (inited : Bool) (n : String) : Bool :=
  toolNames.contains n ||
  ["closeConnection", "checkConnectionHealth", "ensureConnection",
   "handleRequest", "start", "startHealthCheck"].contains n ||
  ["name", "version", "connectionManager", "dataOperations",
   "keyOperations", "redisInfo", "maxRestarts"].contains n ||
  (n == "initialized" && inited)

/-- The names of the tools pushed into the `tools/list` manifest, in push
order: ten unconditional tools, the five permission-gated tools, the
doubly-gated rename, then the two unconditional TTL tools (descriptions
and input schemas are data carried alongside the names and are omitted). -/
def toolsListNames (pm : Perms) : List String :=
  ["get_data", "list_keys", "exists_key", "get_key_info", "get_redis_info",
   "get_database_stats", "get_memory_info", "test_connection",
   "get_operation_logs", "check_permissions"]
  ++ (if pm.allowInsert then ["set_data"] else [])
  ++ (if pm.allowUpdate then ["update_data"] else [])
  ++ (if pm.allowDelete then ["delete_data"] else [])
  ++ (if pm.allowCreate then ["create_key"] else [])
  ++ (if pm.allowDrop then ["drop_key"] else [])
  ++ (if pm.allowCreate && pm.allowDrop then ["rename_key"] else [])
  ++ ["set_ttl", "remove_ttl"]

/-- Run one tool wrapper by name against the server state. The default
branch is unreachable: callers check membership in `toolNames` first. -/
def runTool (pm : Perms) (n : String) (args : JVal) (st : SState) :
    Except String JVal × SState :=
  let lift := fun (r : Except String JVal × Store) =>
    (r.1, SState.mk st.inited r.2 st.connHealthy)
  if n = "get_data" then lift (FinalMCPServer.get_data args st.store)
  else if n = "set_data" then lift (FinalMCPServer.set_data pm args st.store)
  else if n = "update_data" then
    lift (FinalMCPServer.update_data pm args st.store)
  else if n = "delete_data" then
    lift (FinalMCPServer.delete_data pm args st.store)
  else if n = "list_keys" then lift (FinalMCPServer.list_keys args st.store)
  else if n = "create_key" then
    lift (FinalMCPServer.create_key pm args st.store)
  else if n = "drop_key" then lift (FinalMCPServer.drop_key pm args st.store)
  else if n = "exists_key" then
    lift (FinalMCPServer.exists_key args st.store)
  else if n = "get_key_info" then
    lift (FinalMCPServer.get_key_info args st.store)
  else if n = "rename_key" then
    lift (FinalMCPServer.rename_key pm args st.store)
  else if n = "set_ttl" then lift (FinalMCPServer.set_ttl args st.store)
  else if n = "remove_ttl" then lift (FinalMCPServer.remove_ttl args st.store)
  else if n = "get_redis_info" then
    (.ok (FinalMCPServer.get_redis_info pm st), st)
  else if n = "get_database_stats" then
    (.ok (FinalMCPServer.get_database_stats st), st)
  else if n = "get_memory_info" then
    (.ok FinalMCPServer.get_memory_info, st)
  else if n = "test_connection" then
    (.ok (FinalMCPServer.test_connection st), st)
  else if n = "get_operation_logs" then
    match FinalMCPServer.get_operation_logs args with
    | .ok r => (.ok r, st)
    | .error m => (.error m, st)
  else if n = "check_permissions" then
    (.ok (FinalMCPServer.check_permissions pm st), st)
  else (.error ("Unknown tool: " ++ n), st)

/-! ## JSON-RPC responses and the dispatcher -/

/-- A JSON-RPC error object. -/
structure ErrObj where
  code : Int
  msg : String
deriving DecidableEq, Repr

/-- A JSON-RPC response (the constant `jsonrpc: "2.0"` tag is implicit;
result and error are mutually exclusive by construction). -/
inductive Response where
  | ok (id : JVal) (result : JVal)
  | err (id : JVal) (e : ErrObj)

/-- What one call of `handleRequest` does: return a response, return
nothing (notifications), or terminate the process before returning
(`notifications/exit`). The delayed exit scheduled by `shutdown` fires
after a grace period and is not modelled. -/
inductive HandleOutcome where
  | resp (r : Response)
  | noResp
  | halt

/-- The error-code translation of the dispatcher's top-level catch:
substring match on the error message. -/
def translateErrorCode (m : String) : Int :=
  if jsIncludes m ("Server not initialized") then -32002
  else if jsIncludes m ("Unknown method") then -32601
  else if jsIncludes m ("Unsupported JSON-RPC version") then -32600
  else -32603

/-- Build the error response the top-level catch returns: the message is
passed through unchanged and the code is derived from it. -/
def mkErr (id : JVal) (m : String) : HandleOutcome :=
  .resp (.err id ⟨translateErrorCode m, m⟩)

/-- A response rendered back into a JSON value (used when `handleRequest`
is invoked re-entrantly through the `tools/call` name lookup). -/
def respJ : Response → JVal
  | .ok id r =>
      .obj [("jsonrpc", .str "2.0"), ("id", id), ("result", r)]
  | .err id e =>
      .obj [("jsonrpc", .str "2.0"), ("id", id),
            ("error", .obj [("code", .num e.code), ("message", .str e.msg)])]

/-- The `content` wrapping of a tool-call result. The real code places
`JSON.stringify(result, null, 2)` in the text field; the serialization is
not modelled and the structured value is carried instead. -/
def wrapContent (v : JVal) : JVal :=
  .obj [("content", .arr [.obj [("type", .str "text"), ("text", v)]])]

/-- What the body of `handleRequest` (its inner try block together with
the notification/shutdown returns) produces when it does not throw: an
ordinary result, a notification (return null), or process termination. -/
inductive BodyOut where
  | val (r : JVal)
  | notif
  | halted

/-- Turn a body outcome into the dispatcher's return value. -/
def outcomeJ (id : JVal) : BodyOut → HandleOutcome
  | .val r => .resp (.ok id r)
  | .notif => .noResp
  | .halted => .halt

/-- The body of `handleRequest`: envelope gate, method routing and the
tools/call name lookup. Throws are `.error` values that the single
top-level catch of `handleRequest` translates. `recur` is the dispatcher
itself, used when `tools/call` names the `handleRequest` member. -/
def hrBody (recur : SState → JVal → HandleOutcome × SState) (pm : Perms)
    (st : SState) (req : JVal) : Except String BodyOut × SState :=
      if !jvalIsStr (jget req ("jsonrpc")) ("2.0") then
        (.error ("Unsupported JSON-RPC version"), st)
      else
        match jget req ("method") with
        | .str m =>
            let ps := jget req ("params")
            if m = "initialize" then
              let caps := jget ps ("capabilities")
              let lc := JVal.obj [("listChanged", .bool false)]
              let serverCaps :=
                [("tools", lc)]
                ++ (if jsTruthy (jget caps ("prompts")) then
                      [("prompts", lc)] else [])
                ++ (if jsTruthy (jget caps ("resources")) then
                      [("resources", lc)] else [])
                ++ (if jsTruthy (jget caps ("logging")) then
                      [("logging", lc)] else [])
                ++ (if jsTruthy (jget caps ("roots")) then
                      [("roots", lc)] else [])
              let result := JVal.obj
                [("protocolVersion",
                  jsOr (jget ps ("protocolVersion")) (.str "2025-06-18")),
                 ("capabilities", .obj serverCaps),
                 ("serverInfo", .obj [("name", .str "redis-mcp-server"),
                                      ("version", .str "1.0.0")])]
              (.ok (.val result), SState.mk true st.store st.connHealthy)
            else if m = "tools/list" then
              let result := JVal.obj
                [("tools", .arr ((toolsListNames pm).map
                    (fun n => JVal.obj [("name", .str n)]))),
                 ("environment",
                  .obj [("ALLOW_INSERT", .bool pm.allowInsert),
                        ("ALLOW_UPDATE", .bool pm.allowUpdate),
                        ("ALLOW_DELETE", .bool pm.allowDelete),
                        ("ALLOW_CREATE", .bool pm.allowCreate),
                        ("ALLOW_DROP", .bool pm.allowDrop),
                        ("serverInfo",
                         .obj [("name", .str "redis-mcp-server"),
                               ("version", .str "1.0.0")])])]
              (.ok (.val result), st)
            else if m = "prompts/list" then
              (.ok (.val (.obj [("prompts", .arr [])])), st)
            else if m = "prompts/call" then
              (.ok (.val (.obj [("messages", .arr
                [.obj [("role", .str "assistant"),
                       ("content", .arr [.obj [("type", .str "text"),
                         ("text", .str "Unsupported prompts call")]])]])])),
               st)
            else if m = "resources/list" then
              (.ok (.val (.obj [("resources", .arr [])])), st)
            else if m = "resources/read" then
              (.ok (.val (.obj [("contents", .arr
                [.obj [("uri", .str "error://unsupported"),
                       ("text", .str "Unsupported resources read")]])])), st)
            else if m = "logging/list" then
              (.ok (.val (.obj [("logs", .arr [])])), st)
            else if m = "logging/read" then
              (.ok (.val (.obj [("contents", .arr
                [.obj [("uri", .str "error://unsupported"),
                       ("text", .str "Unsupported logging read")]])])), st)
            else if m = "roots/list" then
              (.ok (.val (.obj [("roots", .arr [])])), st)
            else if m = "roots/read" then
              (.ok (.val (.obj [("contents", .arr
                [.obj [("uri", .str "error://unsupported"),
                       ("text", .str "Unsupported roots read")]])])), st)
            else if m = "tools/call" then
              let nm := jget ps ("name")
              if !jsTruthy nm then (.error ("Missing tool name"), st)
              else
                match nm with
                | .str n =>
                    if !memberTruthy st.inited n then
                      (.error ("Unknown tool: " ++ n), st)
                    else
                      let args := jsOr (jget ps ("arguments")) (.obj [])
                      if toolNames.contains n then
                        match runTool pm n args st with
                        | (.ok v, st2) =>
                            (.ok (.val (wrapContent v)), st2)
                        | (.error m2, st2) => (.error m2, st2)
                      else if n = "handleRequest" then
                        match recur st args with
                        | (.resp r, st2) =>
                            (.ok (.val (wrapContent (respJ r))), st2)
                        | (.noResp, st2) =>
                            (.ok (.val (wrapContent .null)), st2)
                        | (.halt, st2) => (.ok .halted, st2)
                      else if n = "closeConnection" ∨ n = "ensureConnection"
                          ∨ n = "start" ∨ n = "startHealthCheck" then
                        (.ok (.val (wrapContent .undefV)), st)
                      else if n = "checkConnectionHealth" then
                        (.ok (.val (wrapContent (.bool st.connHealthy))),
                         st)
                      else (.error ("this[name] is not a function"), st)
                | other =>
                    (.error ("Unknown tool: " ++ jsDisplay other), st)
            else if m = "ping" then
              (.ok (.val (.obj [("pong", .bool true)])), st)
            else if m = "shutdown" then
              (.ok (.val .null), st)
            else if m = "notifications/initialized" then
              (.ok .notif, st)
            else if m = "notifications/exit" then
              (.ok .halted, st)
            else (.error ("Unknown method: " ++ m), st)
        | other =>
            (.error ("Unknown method: " ++ jsDisplay other), st)

/-- `handleRequest`: the JSON-RPC dispatcher. The body runs inside a
single top-level catch that turns a thrown message into an error response
whose code is the substring translation of the message, the message
passed through unchanged. The fuel argument bounds re-entrant
self-invocation through `tools/call` with the tool name `handleRequest`
(in JavaScript the depth is bounded by the nesting of the parsed request,
with stack exhaustion surfacing as an internal error). -/
def handleRequest : Nat → Perms → SState → JVal → HandleOutcome × SState
  | 0, _, st, req =>
      (mkErr (jget req ("id")) ("Maximum call stack size exceeded"), st)
  | fuel + 1, pm, st, req =>
      match hrBody (fun st2 a => handleRequest fuel pm st2 a) pm st req with
      | (.ok out, st2) => (outcomeJ (jget req ("id")) out, st2)
      | (.error m, st2) => (mkErr (jget req ("id")) m, st2)

/-! ## The stdio transport loop -/

/-- One line of a stdin data batch after JSON parsing: skipped when blank,
a parse failure with its message, or a parsed request. -/
inductive TLine where
  | blank
  | malformed (m : String)
  | parsed (req : JVal)

/-- The stdin handler of `start`: processes the lines of a batch in order;
a parse failure emits one synthetic error response (id null, -32603) and
processing continues; a request that terminates the process stops the
loop. Returns the emitted responses, the final state, and whether the
process terminated. -/
def processLines (fuel : Nat) (pm : Perms) :
    SState → List TLine → List Response × SState × Bool
  | st, [] => ([], st, false)
  | st, .blank :: rest => processLines fuel pm st rest
  | st, .malformed m :: rest =>
      let t := processLines fuel pm st rest
      (Response.err .null ⟨-32603, "Internal error: " ++ m⟩ :: t.1, t.2)
  | st, .parsed req :: rest =>
      match handleRequest fuel pm st req with
      | (.resp r, st2) =>
          let t := processLines fuel pm st2 rest
          (r :: t.1, t.2)
      | (.noResp, st2) => processLines fuel pm st2 rest
      | (.halt, st2) => ([], st2, true)

/-! ## Concrete fixtures used by witnesses and counterexamples -/

/-- All five permission flags allowed. -/
def pmAllOn : Perms := ⟨true, true, true, true, true⟩

/-- All five permission flags disallowed. -/
def pmAllOff : Perms := ⟨false, false, false, false, false⟩

/-- A fresh server state: not yet through `initialize`, empty store,
healthy connection. -/
def st0 : SState := SState.mk false [] true

/-- An arguments object that passes every mutating wrapper validation. -/
def argsAll : JVal :=
  .obj [("key", .str "k"), ("value", .str "v"), ("oldKey", .str "o"),
        ("newKey", .str "n")]

/-- A ping request without an id field. -/
def pingReq : JVal := .obj [("jsonrpc", .str "2.0"), ("method", .str "ping")]

/-- The manifest as the specification words it: the twelve unconditional
tools first, then each conditional tool gated by its flag (a second,
spec-side definition used to compare against `toolsListNames`, which is
the one transcribed from the code). -/
def specManifest (pm : Perms) : List String :=
  ["get_data", "list_keys", "exists_key", "get_key_info", "get_redis_info",
   "get_database_stats", "get_memory_info", "test_connection",
   "get_operation_logs", "check_permissions", "set_ttl", "remove_ttl"]
  ++ (if pm.allowInsert then ["set_data"] else [])
  ++ (if pm.allowUpdate then ["update_data"] else [])
  ++ (if pm.allowDelete then ["delete_data"] else [])
  ++ (if pm.allowCreate then ["create_key"] else [])
  ++ (if pm.allowDrop then ["drop_key"] else [])
  ++ (if pm.allowCreate && pm.allowDrop then ["rename_key"] else [])

/-! ## Store lemmas -/

theorem sLookup_sInsert (s : Store) (k : String) (e : Entry) :
    sLookup (sInsert s k e) k = some e := by
  induction s with
  | nil => simp [sInsert, sLookup]
  | cons p rest ih =>
      obtain ⟨k0, e0⟩ := p
      by_cases h : k0 = k <;> simp [sInsert, sLookup, h, ih]

theorem sLookup_sRemove (s : Store) (k : String) :
    sLookup (sRemove s k) k = none := by
  induction s with
  | nil => simp [sRemove, sLookup]
  | cons p rest ih =>
      obtain ⟨k0, e0⟩ := p
      by_cases h : k0 = k <;> simp [sRemove, sLookup, h, ih]

theorem sLookup_sDel (s : Store) (k : String) :
    sLookup (sDel s k).2 k = none := by
  unfold sDel
  cases h : sLookup s k with
  | none => simpa using h
  | some e => simpa using sLookup_sRemove s k

theorem sLookup_sExpire (s : Store) (k : String) (n : Int) :
    sLookup (sExpire s k n).2 k =
      (sLookup s k).map (fun e => ⟨e.val, some n⟩) := by
  unfold sExpire
  cases h : sLookup s k <;> simp [h, sLookup_sInsert]

theorem sLpush_ok_lookup {s : Store} {k : String} {vs : List String}
    {n : Int} {s2 : Store} (h : sLpush s k vs = .ok (n, s2)) :
    (sLookup s2 k).isSome = true := by
  unfold sLpush at h
  split at h
  · exact absurd h (by simp)
  · split at h
    · simp only [Except.ok.injEq, Prod.mk.injEq] at h
      rw [← h.2, sLookup_sInsert]
      rfl
    · simp only [Except.ok.injEq, Prod.mk.injEq] at h
      rw [← h.2, sLookup_sInsert]
      rfl
    · exact absurd h (by simp)

theorem sSadd_ok_lookup {s : Store} {k : String} {vs : List String}
    {n : Int} {s2 : Store} (h : sSadd s k vs = .ok (n, s2)) :
    (sLookup s2 k).isSome = true := by
  unfold sSadd at h
  split at h
  · exact absurd h (by simp)
  · split at h
    · simp only [Except.ok.injEq, Prod.mk.injEq] at h
      rw [← h.2, sLookup_sInsert]
      rfl
    · simp only [Except.ok.injEq, Prod.mk.injEq] at h
      rw [← h.2, sLookup_sInsert]
      rfl
    · exact absurd h (by simp)

theorem sHset_ok_lookup {s : Store} {k : String}
    {ps : List (String × String)} {n : Int} {s2 : Store}
    (h : sHset s k ps = .ok (n, s2)) :
    (sLookup s2 k).isSome = true := by
  unfold sHset at h
  split at h
  · exact absurd h (by simp)
  · split at h
    · simp only [Except.ok.injEq, Prod.mk.injEq] at h
      rw [← h.2, sLookup_sInsert]
      rfl
    · simp only [Except.ok.injEq, Prod.mk.injEq] at h
      rw [← h.2, sLookup_sInsert]
      rfl
    · exact absurd h (by simp)

/-! ## Claim theorems -/

/-- C1: for every combination of the five permission flags, the
`tools/list` manifest contains exactly the twelve unconditional tools
plus `set_data` iff insert is allowed, `update_data` iff update is
allowed, `delete_data` iff delete is allowed, `create_key` iff create is
allowed, `drop_key` iff drop is allowed, and `rename_key` iff both
create and drop are allowed. -/
theorem c1_tools_manifest (i u d c dr : Bool) (t : String) :
    t ∈ toolsListNames ⟨i, u, d, c, dr⟩ ↔
      (t ∈ ["get_data", "list_keys", "exists_key", "get_key_info",
            "get_redis_info", "get_database_stats", "get_memory_info",
            "test_connection", "get_operation_logs", "check_permissions",
            "set_ttl", "remove_ttl"] ∨
       (i = true ∧ t = "set_data") ∨
       (u = true ∧ t = "update_data") ∨
       (d = true ∧ t = "delete_data") ∨
       (c = true ∧ t = "create_key") ∨
       (dr = true ∧ t = "drop_key") ∨
       (c = true ∧ dr = true ∧ t = "rename_key")) := by
  have hmem : ∀ (b : Bool) (x : String),
      (t ∈ (if b then [x] else [])) ↔ (b = true ∧ t = x) := by
    intro b x
    cases b <;> simp
  have hmem2 : ∀ (b1 b2 : Bool) (x : String),
      (t ∈ (if b1 && b2 then [x] else [])) ↔
        (b1 = true ∧ b2 = true ∧ t = x) := by
    intro b1 b2 x
    cases b1 <;> cases b2 <;> simp
  have hperm : (toolsListNames ⟨i, u, d, c, dr⟩).Perm
      (specManifest ⟨i, u, d, c, dr⟩) := by
    cases i <;> cases u <;> cases d <;> cases c <;> cases dr <;> decide
  rw [hperm.mem_iff]
  simp only [specManifest, List.mem_append, hmem2, hmem, or_assoc]

/-- C9: `getData` on a key that does not exist returns
exists false with null value, type and ttl, without failing, regardless
of any requested type (the operation reads no type parameter). -/
theorem c9_get_absent (k : String) (t : JVal) (s : Store)
    (hk : k ≠ "") (ha : sLookup s k = none) :
    DataOperations.getData (.obj [("key", .str k), ("type", t)]) s =
      (.ok (.obj [("key", .str k), ("value", .null), ("exists", .bool false),
                  ("type", .null), ("ttl", .null)]), s) := by
  simp [DataOperations.getData, keyArg, jget, jgetFields, hk, sExistsNum, ha]

/-- Witness for C9 at a concrete absent key and a concrete requested
type. -/
theorem c9_get_absent_witness :
    DataOperations.getData
        (.obj [("key", .str "missing"), ("type", .str "hash")]) [] =
      (.ok (.obj [("key", .str "missing"), ("value", .null),
                  ("exists", .bool false), ("type", .null),
                  ("ttl", .null)]), []) :=
  c9_get_absent "missing" (.str "hash") [] (by decide) rfl

/-- C10: `existsKey` on an absent key succeeds with exists false and null
type, but its ttl field is the literal marker for an expired key (the
null internal ttl falls through the reporting ternary), unlike
`getData`, which reports a null ttl for the same absent key. -/
theorem c10_exists_absent (k : String) (s : Store)
    (hk : k ≠ "") (ha : sLookup s k = none) :
    KeyOperations.existsKey (.obj [("key", .str k)]) s =
      (.ok (.obj [("key", .str k), ("exists", .bool false),
                  ("type", .null), ("ttl", .str "expired")]), s) ∧
    (DataOperations.getData (.obj [("key", .str k)]) s).1 =
      .ok (.obj [("key", .str k), ("value", .null), ("exists", .bool false),
                 ("type", .null), ("ttl", .null)]) := by
  constructor <;>
    simp [KeyOperations.existsKey, DataOperations.getData, keyArg, jget,
          jgetFields, hk, sExistsNum, ha, ttlTernary]

/-- Witness for C10 at a concrete absent key. -/
theorem c10_exists_absent_witness :
    KeyOperations.existsKey (.obj [("key", .str "missing")]) [] =
      (.ok (.obj [("key", .str "missing"), ("exists", .bool false),
                  ("type", .null), ("ttl", .str "expired")]), []) ∧
    (DataOperations.getData (.obj [("key", .str "missing")]) []).1 =
      .ok (.obj [("key", .str "missing"), ("value", .null),
                 ("exists", .bool false), ("type", .null),
                 ("ttl", .null)]) :=
  c10_exists_absent "missing" [] (by decide) rfl

theorem sExistsNum_of_isSome {s : Store} {k : String}
    (h : (sLookup s k).isSome = true) : sExistsNum s k = 1 := by
  unfold sExistsNum
  cases hl : sLookup s k with
  | none => rw [hl] at h; simp at h
  | some e => simp

theorem createKeyBody_ok_lookup {k : String} {value ttl ty : JVal}
    {s : Store} {r : JVal} {s2 : Store}
    (h : createKeyBody k value ttl ty s = (.ok r, s2)) :
    (sLookup s2 k).isSome = true := by
  unfold createKeyBody at h
  repeat' split at h
  all_goals
    first
    | (simp at h
       done)
    | (simp only [Prod.mk.injEq] at h
       obtain ⟨h1, h2⟩ := h
       subst h2
       first
       | simp [sSetEx, sSet, sLookup_sInsert]
       | (rename_i heq
          first
          | exact sLpush_ok_lookup heq
          | exact sSadd_ok_lookup heq
          | exact sHset_ok_lookup heq))

/-- C7: a second `createKey` with the same arguments after a successful
first one fails with the conflict message naming the key, and the store
after the failure is exactly the store after the first call: the failing
call performs no write. -/
theorem c7_create_twice (pm : Perms) (p : JVal) (k : String) (s0 : Store)
    (r : JVal) (s1 : Store)
    (hkey : jget p ("key") = .str k)
    (h1 : KeyOperations.createKey pm p s0 = (.ok r, s1)) :
    KeyOperations.createKey pm p s1 =
      (.error ("Failed to create key: Key " ++ qt ++ k ++ qt ++
               " already exists"), s1) := by
  by_cases hcr : pm.allowCreate = true
  swap
  · exfalso
    rw [Bool.not_eq_true] at hcr
    unfold KeyOperations.createKey at h1
    rw [hcr] at h1
    simp at h1
  by_cases hk : k = ""
  · exfalso
    unfold KeyOperations.createKey at h1
    rw [hcr] at h1
    simp [keyArg, hkey, hk] at h1
  have hka : keyArg p ("key") = some k := by simp [keyArg, hkey, hk]
  have hsome : (sLookup s1 k).isSome = true := by
    unfold KeyOperations.createKey at h1
    rw [hcr] at h1
    simp only [hka, Bool.not_true, Bool.false_eq_true, if_false] at h1
    split at h1
    · simp at h1
    · split at h1
      · rename_i r0 s2 heq
        simp only [Prod.mk.injEq] at h1
        obtain ⟨hr, hs⟩ := h1
        rw [← hs]
        have h3 := createKeyBody_ok_lookup heq
        split
        · rw [sLookup_sExpire]
          cases hl : sLookup s2 k with
          | none => rw [hl] at h3; simp at h3
          | some e => rfl
        · exact h3
      · simp at h1
  unfold KeyOperations.createKey
  rw [hcr]
  simp only [hka, Bool.not_true, Bool.false_eq_true, if_false,
             sExistsNum_of_isSome hsome]
  simp

/-- Witness for C7: creating the key a, then creating it again on the
resulting store. -/
theorem c7_create_twice_witness :
    KeyOperations.createKey pmAllOn (.obj [("key", .str "a")])
        [("a", ⟨.str "", none⟩)] =
      (.error ("Failed to create key: Key " ++ qt ++ "a" ++ qt ++
               " already exists"), [("a", ⟨.str "", none⟩)]) :=
  c7_create_twice pmAllOn (.obj [("key", .str "a")]) "a" [] _
    [("a", ⟨.str "", none⟩)] rfl rfl

/-- C6 counterexample: `updateData` of an existing list key with an empty
array value succeeds, but deletes the key and writes nothing — no
empty-string placeholder is stored and the key no longer exists, contrary
to the claimed shared type-dispatch policy. -/
theorem c6_counterexample :
    (DataOperations.updateData pmAllOn
        (.obj [("key", .str "k"), ("value", .arr [])])
        [("k", ⟨.list ["a"], none⟩)]).1 =
      .ok (.obj [("key", .str "k"), ("value", .arr []),
                 ("type", .str "list"), ("ttl", .null),
                 ("result", .undefV)]) ∧
    sLookup (DataOperations.updateData pmAllOn
        (.obj [("key", .str "k"), ("value", .arr [])])
        [("k", ⟨.list ["a"], none⟩)]).2 "k" = none :=
  ⟨rfl, rfl⟩

/-- C6 amended: only `setData` writes the single empty-string placeholder
for an empty list array (the key exists afterwards); `updateData` on a
list key deletes the key and writes nothing (the call still succeeds,
and the key is gone); `createKey` passes the empty array straight to
LPUSH, which rejects zero arguments, so the create fails and the store
is unchanged. -/
theorem c6_empty_list (pm : Perms) (k : String) (s : Store) (hk : k ≠ "") :
    (pm.allowInsert = true →
      sLookup (DataOperations.setData pm
          (.obj [("key", .str k), ("value", .arr []),
                 ("type", .str "list")]) s).2 k = some ⟨.list [""], none⟩ ∧
      (DataOperations.setData pm
          (.obj [("key", .str k), ("value", .arr []),
                 ("type", .str "list")]) s).1 =
        .ok (.obj [("key", .str k), ("value", .arr []),
                   ("type", .str "list"), ("ttl", .null),
                   ("result", .num 1)])) ∧
    (pm.allowUpdate = true → ∀ (xs : List String) (t : Option Int),
      sLookup s k = some ⟨.list xs, t⟩ →
      sLookup (DataOperations.updateData pm
          (.obj [("key", .str k), ("value", .arr [])]) s).2 k = none ∧
      (DataOperations.updateData pm
          (.obj [("key", .str k), ("value", .arr [])]) s).1 =
        .ok (.obj [("key", .str k), ("value", .arr []),
                   ("type", .str "list"), ("ttl", .null),
                   ("result", .undefV)])) ∧
    (pm.allowCreate = true → sLookup s k = none →
      KeyOperations.createKey pm
          (.obj [("key", .str k), ("value", .arr []),
                 ("type", .str "list")]) s =
        (.error ("Failed to create key: wrong number of arguments for lpush"),
         s)) := by
  refine ⟨?_, ?_, ?_⟩
  · intro hIns
    constructor <;>
      simp [DataOperations.setData, setDataBody, keyArg, jget, jgetFields,
            jsDefault, jsMissingValue, jsTtlPos, jvalIsStr, jsOr, jsTruthy,
            hIns, hk, sLpush, sLookup_sDel, sLookup_sInsert]
  · intro hUpd xs t hl
    constructor <;>
      simp [DataOperations.updateData, updateDataBody, keyArg, jget,
            jgetFields, jsDefault, jsMissingValue, jsTtlPos, jvalIsStr,
            jsOr, jsTruthy, hUpd, hk, hl, sExistsNum, sType, rvalType,
            sLookup_sDel]
  · intro hCr ha
    simp [KeyOperations.createKey, createKeyBody, keyArg, jget, jgetFields,
          jsDefault, jsMissingValue, jsTtlPos, jvalIsStr, jsOr, jsTruthy,
          hCr, hk, ha, sExistsNum, toArgs, sLpush]

/-- Witness for C6 at concrete keys and stores: the set case on an empty
store, the update case on a store holding a one-element list, and the
create case on an empty store. -/
theorem c6_empty_list_witness :
    sLookup (DataOperations.setData pmAllOn
        (.obj [("key", .str "k"), ("value", .arr []),
               ("type", .str "list")]) []).2 "k" =
      some ⟨.list [""], none⟩ ∧
    sLookup (DataOperations.updateData pmAllOn
        (.obj [("key", .str "k"), ("value", .arr [])])
        [("k", ⟨.list ["a"], none⟩)]).2 "k" = none ∧
    KeyOperations.createKey pmAllOn
        (.obj [("key", .str "k"), ("value", .arr []),
               ("type", .str "list")]) [] =
      (.error ("Failed to create key: wrong number of arguments for lpush"),
       []) := by
  have h1 := c6_empty_list pmAllOn "k" ([] : Store) (by decide)
  have h2 := c6_empty_list pmAllOn "k" [("k", ⟨.list ["a"], none⟩)]
    (by decide)
  exact ⟨(h1.1 rfl).1, ((h2.2.1 rfl) ["a"] none rfl).1, h1.2.2 rfl rfl⟩

/-- C2 counterexample: with the insert flag off, a tools/call dispatch of
set_data with a missing key fails with the argument-validation message,
not the fixed permission message — so the permission flag is not checked
as the very first step, before argument validation. -/
theorem c2_counterexample :
    runTool ⟨false, true, true, true, true⟩ ("set_data")
        (.obj [("value", .str "v")]) st0 =
      (.error ("Missing or invalid key parameter"), st0) ∧
    ("Missing or invalid key parameter" ≠
     "Failed to set data: Insert operations are not allowed") :=
  ⟨rfl, by decide⟩

/-- C2 amended: each mutating operation checks its permission flag before
any store access — with the flag off the dispatched call never changes
the server state, and when the wrapper-level argument validation passes
it fails with the operation's fixed permission message; but the
tools/call wrapper validates its key/value arguments before delegating
to the permission check, so with invalid arguments the failure is the
validation message instead. -/
theorem c2_permission_gate (pm : Perms) (a : JVal) (st : SState) :
    (pm.allowInsert = false →
      (runTool pm ("set_data") a st).2 = st ∧
      (jsValidKey (jget a ("key")) = true →
       jsMissingValue (jget a ("value")) = false →
       (runTool pm ("set_data") a st).1 =
         .error ("Failed to set data: Insert operations are not allowed"))) ∧
    (pm.allowUpdate = false →
      (runTool pm ("update_data") a st).2 = st ∧
      (jsValidKey (jget a ("key")) = true →
       jsMissingValue (jget a ("value")) = false →
       (runTool pm ("update_data") a st).1 =
         .error ("Failed to update data: Update operations are not allowed"))) ∧
    (pm.allowDelete = false →
      (runTool pm ("delete_data") a st).2 = st ∧
      (jsValidKey (jget a ("key")) = true →
       (runTool pm ("delete_data") a st).1 =
         .error ("Failed to delete data: Delete operations are not allowed"))) ∧
    (pm.allowCreate = false →
      (runTool pm ("create_key") a st).2 = st ∧
      (jsValidKey (jget a ("key")) = true →
       (runTool pm ("create_key") a st).1 =
         .error ("Failed to create key: Create key operations are not allowed"))) ∧
    (pm.allowDrop = false →
      (runTool pm ("drop_key") a st).2 = st ∧
      (jsValidKey (jget a ("key")) = true →
       (runTool pm ("drop_key") a st).1 =
         .error ("Failed to drop key: Drop key operations are not allowed"))) ∧
    ((pm.allowCreate && pm.allowDrop) = false →
      (runTool pm ("rename_key") a st).2 = st ∧
      (jsValidKey (jget a ("oldKey")) = true →
       jsValidKey (jget a ("newKey")) = true →
       (runTool pm ("rename_key") a st).1 =
         .error ("Failed to rename key: Rename operations require both create and drop permissions"))) := by
  refine ⟨?_, ?_, ?_, ?_, ?_, ?_⟩ <;> intro h <;> constructor
  · by_cases h1 : jsValidKey (jget a ("key")) = true <;>
      by_cases h2 : jsMissingValue (jget a ("value")) = true <;>
      simp [runTool, FinalMCPServer.set_data, DataOperations.setData,
            h, h1, h2]
  · intro h1 h2
    simp [runTool, FinalMCPServer.set_data, DataOperations.setData,
          h, h1, h2]
  · by_cases h1 : jsValidKey (jget a ("key")) = true <;>
      by_cases h2 : jsMissingValue (jget a ("value")) = true <;>
      simp [runTool, FinalMCPServer.update_data, DataOperations.updateData,
            h, h1, h2]
  · intro h1 h2
    simp [runTool, FinalMCPServer.update_data, DataOperations.updateData,
          h, h1, h2]
  · by_cases h1 : jsValidKey (jget a ("key")) = true <;>
      simp [runTool, FinalMCPServer.delete_data, DataOperations.deleteData,
            h, h1]
  · intro h1
    simp [runTool, FinalMCPServer.delete_data, DataOperations.deleteData,
          h, h1]
  · by_cases h1 : jsValidKey (jget a ("key")) = true <;>
      simp [runTool, FinalMCPServer.create_key, KeyOperations.createKey,
            h, h1]
  · intro h1
    simp [runTool, FinalMCPServer.create_key, KeyOperations.createKey,
          h, h1]
  · by_cases h1 : jsValidKey (jget a ("key")) = true <;>
      simp [runTool, FinalMCPServer.drop_key, KeyOperations.dropKey,
            h, h1]
  · intro h1
    simp [runTool, FinalMCPServer.drop_key, KeyOperations.dropKey,
          h, h1]
  · by_cases h1 : jsValidKey (jget a ("oldKey")) = true <;>
      by_cases h2 : jsValidKey (jget a ("newKey")) = true <;>
      simp [runTool, FinalMCPServer.rename_key, KeyOperations.renameKey,
            h, h1, h2]
  · intro h1 h2
    simp [runTool, FinalMCPServer.rename_key, KeyOperations.renameKey,
          h, h1, h2]

/-- Witness for C2: with every flag off and fully valid arguments, each
of the six mutating tools fails with its fixed permission message, and
the server state is untouched. -/
theorem c2_permission_gate_witness :
    (runTool pmAllOff ("set_data") argsAll st0).1 =
      .error ("Failed to set data: Insert operations are not allowed") ∧
    (runTool pmAllOff ("update_data") argsAll st0).1 =
      .error ("Failed to update data: Update operations are not allowed") ∧
    (runTool pmAllOff ("delete_data") argsAll st0).1 =
      .error ("Failed to delete data: Delete operations are not allowed") ∧
    (runTool pmAllOff ("create_key") argsAll st0).1 =
      .error ("Failed to create key: Create key operations are not allowed") ∧
    (runTool pmAllOff ("drop_key") argsAll st0).1 =
      .error ("Failed to drop key: Drop key operations are not allowed") ∧
    (runTool pmAllOff ("rename_key") argsAll st0).1 =
      .error ("Failed to rename key: Rename operations require both create and drop permissions") ∧
    (runTool pmAllOff ("set_data") argsAll st0).2 = st0 := by
  have h := c2_permission_gate pmAllOff argsAll st0
  exact ⟨(h.1 rfl).2 rfl rfl, (h.2.1 rfl).2 rfl rfl, (h.2.2.1 rfl).2 rfl,
         (h.2.2.2.1 rfl).2 rfl, (h.2.2.2.2.1 rfl).2 rfl,
         (h.2.2.2.2.2 rfl).2 rfl rfl, (h.1 rfl).1⟩

/-- C3 counterexample: a request with no id — a notification by the
claim's definition — whose method is notifications/initialized but whose
jsonrpc tag is wrong receives an error response object, so failures
while handling it are not logged-only, and absence of an id does not
suppress the response. -/
theorem c3_counterexample :
    (handleRequest 1 pmAllOn st0
        (.obj [("jsonrpc", .str "1.0"),
               ("method", .str "notifications/initialized")])).1 =
      .resp (.err .undefV ⟨-32600, "Unsupported JSON-RPC version"⟩) :=
  rfl

/-- C3 amended: notification status is decided by the method name, not
by the absence of an id. Requests with method notifications/initialized
that pass the version gate produce no response whatever the health probe
reports, and notifications/exit terminates instead of responding; but a
request without an id whose method is any other (here ping) still
receives a response, and an invalid envelope on a notifications/* method
produces an error response. -/
theorem c3_notifications (fuel : Nat) (pm : Perms) (st : SState)
    (i p : JVal) :
    handleRequest (fuel + 1) pm st
        (.obj [("jsonrpc", .str "2.0"), ("id", i),
               ("method", .str "notifications/initialized"),
               ("params", p)]) = (.noResp, st) ∧
    handleRequest (fuel + 1) pm st
        (.obj [("jsonrpc", .str "2.0"), ("id", i),
               ("method", .str "notifications/exit"),
               ("params", p)]) = (.halt, st) ∧
    handleRequest (fuel + 1) pm st
        (.obj [("jsonrpc", .str "2.0"), ("method", .str "ping"),
               ("params", p)]) =
      (.resp (.ok .undefV (.obj [("pong", .bool true)])), st) := by
  refine ⟨?_, ?_, ?_⟩ <;>
    simp [handleRequest, hrBody, outcomeJ, jget, jgetFields, jvalIsStr]

/-- C4: the set of names dispatchable through tools/call is a strict
superset of the manifest: closeConnection appears in no manifest under
any flag combination, every manifest name is dispatchable, and a
tools/call naming closeConnection does not fail with the Unknown-tool
error but invokes the internal member and returns its wrapped result. -/
theorem c4_dispatch_superset :
    (∀ i u d c dr : Bool,
       (toolsListNames ⟨i, u, d, c, dr⟩).contains "closeConnection" =
         false) ∧
    (∀ i u d c dr : Bool,
       (toolsListNames ⟨i, u, d, c, dr⟩).all (memberTruthy false) = true) ∧
    handleRequest 1 pmAllOn st0
        (.obj [("jsonrpc", .str "2.0"), ("id", .num 7),
               ("method", .str "tools/call"),
               ("params", .obj [("name", .str "closeConnection")])]) =
      (.resp (.ok (.num 7) (wrapContent .undefV)), st0) :=
  ⟨by decide, by decide, rfl⟩

/-- C5: whenever the dispatcher returns an error response, its code is
selected by substring match on the message exactly as the claim's table
states, with the message passed through unchanged. -/
theorem c5_error_code (fuel : Nat) (pm : Perms) (st : SState) (req : JVal)
    (i : JVal) (c : Int) (m : String)
    (h : (handleRequest fuel pm st req).1 = .resp (.err i ⟨c, m⟩)) :
    c = (if jsIncludes m ("Server not initialized") then -32002
         else if jsIncludes m ("Unknown method") then -32601
         else if jsIncludes m ("Unsupported JSON-RPC version") then -32600
         else -32603) := by
  suffices h2 : c = translateErrorCode m by
    rw [h2]; rfl
  cases fuel with
  | zero =>
      simp only [handleRequest, mkErr, HandleOutcome.resp.injEq,
                 Response.err.injEq, ErrObj.mk.injEq] at h
      obtain ⟨h1, h2, h3⟩ := h
      subst h3
      exact h2.symm
  | succ fuel =>
      simp only [handleRequest] at h
      rcases hb : hrBody (fun st2 a => handleRequest fuel pm st2 a) pm st req
        with ⟨res, st2⟩
      rw [hb] at h
      cases res with
      | ok out => cases out <;> simp [outcomeJ] at h
      | error m2 =>
          simp only [mkErr, HandleOutcome.resp.injEq, Response.err.injEq,
                     ErrObj.mk.injEq] at h
          obtain ⟨h1, h2, h3⟩ := h
          subst h3
          exact h2.symm

/-- Witness for C5: an unknown-method request yields -32601 under the
substring table. -/
theorem c5_error_code_witness :
    (-32601 : Int) =
      (if jsIncludes ("Unknown method: nope") ("Server not initialized")
       then -32002
       else if jsIncludes ("Unknown method: nope") ("Unknown method")
       then -32601
       else if jsIncludes ("Unknown method: nope")
              ("Unsupported JSON-RPC version")
       then -32600
       else -32603) :=
  c5_error_code 1 pmAllOn st0
    (.obj [("jsonrpc", .str "2.0"), ("method", .str "nope")])
    .undefV (-32601) ("Unknown method: nope") rfl

theorem processLines_parsed_resp {fuel : Nat} {pm : Perms} {st : SState}
    {req : JVal} {r : Response} {st2 : SState}
    (h : handleRequest fuel pm st req = (.resp r, st2)) (rest : List TLine) :
    processLines fuel pm st (.parsed req :: rest) =
      (r :: (processLines fuel pm st2 rest).1,
       (processLines fuel pm st2 rest).2) := by
  simp only [processLines]
  rw [h]

theorem processLines_parsed_noResp {fuel : Nat} {pm : Perms} {st : SState}
    {req : JVal} {st2 : SState}
    (h : handleRequest fuel pm st req = (.noResp, st2)) (rest : List TLine) :
    processLines fuel pm st (.parsed req :: rest) =
      processLines fuel pm st2 rest := by
  simp only [processLines]
  rw [h]

theorem processLines_parsed_halt {fuel : Nat} {pm : Perms} {st : SState}
    {req : JVal} {st2 : SState}
    (h : handleRequest fuel pm st req = (.halt, st2)) (rest : List TLine) :
    processLines fuel pm st (.parsed req :: rest) = ([], st2, true) := by
  simp only [processLines]
  rw [h]

/-- C8: a line that fails JSON parsing contributes exactly one synthetic
error response with id null and code -32603, wherever it sits in a batch,
and processing of the remaining lines continues from the state the
preceding lines produced — provided those preceding lines did not
themselves terminate the process. -/
theorem c8_transport (fuel : Nat) (pm : Perms) (st : SState)
    (pre post : List TLine) (m : String)
    (h : (processLines fuel pm st pre).2.2 = false) :
    processLines fuel pm st (pre ++ .malformed m :: post) =
      ((processLines fuel pm st pre).1 ++
        Response.err .null ⟨-32603, "Internal error: " ++ m⟩ ::
          (processLines fuel pm (processLines fuel pm st pre).2.1 post).1,
       (processLines fuel pm (processLines fuel pm st pre).2.1 post).2) := by
  induction pre generalizing st with
  | nil => simp [processLines]
  | cons l rest ih =>
      cases l with
      | blank =>
          simp only [processLines, List.cons_append] at h ⊢
          exact ih st h
      | malformed m2 =>
          simp only [processLines, List.cons_append, List.append_eq] at h ⊢
          rw [ih st h]
      | parsed req =>
          simp only [List.cons_append] at h ⊢
          rcases hr : handleRequest fuel pm st req with ⟨o, st2⟩
          cases o with
          | resp r =>
              simp only [processLines_parsed_resp hr] at h ⊢
              rw [ih st2 h]
              simp
          | noResp =>
              simp only [processLines_parsed_noResp hr] at h ⊢
              exact ih st2 h
          | halt =>
              simp only [processLines_parsed_halt hr] at h
              simp at h

/-- Witness for C8: a batch of a ping line, a malformed line, and a blank
line emits the ping response, then the synthetic -32603 response with id
null, and continues. -/
theorem c8_transport_witness :
    processLines 1 pmAllOn st0
        ([.parsed pingReq] ++ .malformed "boom" :: [.blank]) =
      ((processLines 1 pmAllOn st0 [.parsed pingReq]).1 ++
        Response.err .null ⟨-32603, "Internal error: " ++ "boom"⟩ ::
          (processLines 1 pmAllOn
              (processLines 1 pmAllOn st0 [.parsed pingReq]).2.1
              [.blank]).1,
       (processLines 1 pmAllOn
           (processLines 1 pmAllOn st0 [.parsed pingReq]).2.1
           [.blank]).2) :=
  c8_transport 1 pmAllOn st0 [.parsed pingReq] [.blank] "boom" rfl
